import Mathlib

/-!
Verification of the virtual try-on workflow in `src/App.tsx`.

The component's state is the six `useState` slots of `App`.  State updates
issued inside one synchronous continuation (between two suspension points of
the event loop) are applied together, so the observable states of a run are
the states at each suspension point; `handleGenerate` is embedded as the list
of observable states it produces, given the outcome of the single external
`generateVirtualTryOnImage` call.
-/

namespace VirtualTryOn

/-- `ImageInfo` from `src/types` as used by `fileToImageInfo`:
base64 payload, MIME type and original file name. -/
structure ImageInfo where
  base64 : String
  mimeType : String
  name : String
  deriving DecidableEq, Repr

/-- The six `useState` slots of the `App` component (src/App.tsx lines 12-17). -/
structure AppState where
  personImage : Option ImageInfo
  clothImage : Option ImageInfo
  resultImage : Option String
  isLoading : Bool
  error : Option String
  loadingMessage : String
  deriving DecidableEq, Repr

/-- The fixed validation message of the guard in `handleGenerate` (line 52). -/
def VALIDATION_MESSAGE : String :=
  "Please upload both your photo and a clothing item photo."

/-- The fixed text prepended to a generation failure's description (line 66). -/
def GEN_FAILURE_LEAD : String := "Failed to generate image. "

/-- The fallback description used when the thrown value is not an `Error`
(line 65). -/
def UNKNOWN_ERROR_MESSAGE : String := "An unknown error occurred."

/-- Outcome of the external `generateVirtualTryOnImage` call:
it resolves with a displayable image string, or rejects.  A rejection
carries `some m` when the thrown value is an `Error` with message `m`,
and `none` when it is not an `Error`. -/
inductive GenOutcome where
  | resolve (image : String)
  | reject (message : Option String)
  deriving DecidableEq, Repr

/-- The guard of `handleGenerate` (line 51): both image slots are present. -/
def bothImagesPresent (s : AppState) : Bool :=
  s.personImage.isSome && s.clothImage.isSome

/-- The synchronous prefix of `handleGenerate` once the guard passes
(lines 56-58): `setIsLoading(true); setResultImage(null); setError(null)`. -/
def startGenerating (s : AppState) : AppState :=
  { s with isLoading := true, resultImage := none, error := none }

/-- The continuation of `handleGenerate` after the awaited call settles
(lines 60-69): on resolution `setResultImage(generatedImage)`, on rejection
`setError` with the prefixed description; in both branches the `finally`
block runs `setIsLoading(false)` in the same continuation. -/
def applyOutcome (s : AppState) : GenOutcome → AppState
  | .resolve img => { s with resultImage := some img, isLoading := false }
  | .reject msg =>
      { s with error := some (GEN_FAILURE_LEAD ++ msg.getD UNKNOWN_ERROR_MESSAGE),
               isLoading := false }

/-- `handleGenerate` (src/App.tsx lines 50-70) as the list of observable
states it produces after the initial state, in order.  When the guard fails
there is a single update setting the validation error; otherwise the
synchronous prefix yields one observable state and the settled continuation
a second. -/
def handleGenerate (s : AppState) (g : GenOutcome) : List AppState :=
  if bothImagesPresent s then
    [startGenerating s, applyOutcome (startGenerating s) g]
  else
    [{ s with error := some VALIDATION_MESSAGE }]

/-- Whether `generateVirtualTryOnImage` is invoked during `handleGenerate`:
line 61 is reached exactly when the guard at line 51 passes. -/
def clientInvoked (s : AppState) : Bool := bothImagesPresent s

/-- The final state after `handleGenerate` finishes. -/
def handleGenerateFinal (s : AppState) (g : GenOutcome) : AppState :=
  (handleGenerate s g).getLastD s

/-- A concrete encoded image, for witnesses. -/
def imgA : ImageInfo := { base64 := "QUJD", mimeType := "image/png", name := "person.png" }

/-- A second concrete encoded image, for witnesses. -/
def imgB : ImageInfo := { base64 := "REVG", mimeType := "image/jpeg", name := "cloth.jpg" }

/-- A concrete state with both image slots filled, for witnesses. -/
def stBoth : AppState :=
  { personImage := some imgA, clothImage := some imgB, resultImage := none,
    isLoading := false, error := none, loadingMessage := "m" }

/-- A concrete state with a missing person image and a leftover result,
for witnesses. -/
def stMissing : AppState :=
  { personImage := none, clothImage := some imgB, resultImage := some "old",
    isLoading := false, error := none, loadingMessage := "m" }

/-- C1: with both image slots present, if the generation call resolves the
final state has `resultImage` equal to the returned value and no `error`;
if it rejects, the final state has `error` equal to the fixed prefix
followed by the failure's description (or the generic fallback when the
thrown value carries none) and no `resultImage`. -/
theorem C1_generation_outcome (s : AppState) (h : bothImagesPresent s = true) :
    (∀ img : String,
        (handleGenerateFinal s (.resolve img)).resultImage = some img ∧
        (handleGenerateFinal s (.resolve img)).error = none) ∧
    (∀ msg : Option String,
        (handleGenerateFinal s (.reject msg)).error =
          some (GEN_FAILURE_LEAD ++ msg.getD UNKNOWN_ERROR_MESSAGE) ∧
        (handleGenerateFinal s (.reject msg)).resultImage = none) := by
  constructor
  · intro img
    simp [handleGenerateFinal, handleGenerate, h, startGenerating, applyOutcome]
  · intro msg
    simp [handleGenerateFinal, handleGenerate, h, startGenerating, applyOutcome]

theorem C1_generation_outcome_witness :
    (handleGenerateFinal stBoth (.resolve "pic")).resultImage = some "pic" ∧
    (handleGenerateFinal stBoth (.resolve "pic")).error = none ∧
    (handleGenerateFinal stBoth (.reject (some "quota exceeded"))).error =
      some "Failed to generate image. quota exceeded" ∧
    (handleGenerateFinal stBoth (.reject none)).error =
      some "Failed to generate image. An unknown error occurred." :=
  ⟨((C1_generation_outcome stBoth (by decide)).1 "pic").1,
   ((C1_generation_outcome stBoth (by decide)).1 "pic").2,
   by
     have h := ((C1_generation_outcome stBoth (by decide)).2 (some "quota exceeded")).1
     simpa [GEN_FAILURE_LEAD] using h,
   by
     have h := ((C1_generation_outcome stBoth (by decide)).2 none).1
     simpa [GEN_FAILURE_LEAD, UNKNOWN_ERROR_MESSAGE] using h⟩

/-- C2: when either image slot is absent, the generation client is never
invoked, `error` becomes exactly the validation message, and `isLoading`
is not set (it keeps its prior value). -/
theorem C2_validation_guard (s : AppState) (g : GenOutcome)
    (h : s.personImage = none ∨ s.clothImage = none) :
    clientInvoked s = false ∧
    (handleGenerateFinal s g).error = some VALIDATION_MESSAGE ∧
    (handleGenerateFinal s g).isLoading = s.isLoading := by
  have hb : bothImagesPresent s = false := by
    rcases h with h | h <;> simp [bothImagesPresent, h]
  refine ⟨hb, ?_, ?_⟩ <;>
    simp [handleGenerateFinal, handleGenerate, hb]

theorem C2_validation_guard_witness :
    clientInvoked stMissing = false ∧
    (handleGenerateFinal stMissing (.resolve "pic")).error =
      some "Please upload both your photo and a clothing item photo." ∧
    (handleGenerateFinal stMissing (.resolve "pic")).isLoading = false := by
  have h := C2_validation_guard stMissing (.resolve "pic") (Or.inl rfl)
  refine ⟨h.1, ?_, ?_⟩
  · simpa [VALIDATION_MESSAGE] using h.2.1
  · simpa [stMissing] using h.2.2

/-- C3: with both image slots present, the run first reaches a state with
`error` and `resultImage` both cleared, and only afterwards applies the
outcome: the observable trace is exactly the cleared state followed by the
outcome applied to it. -/
theorem C3_clears_before_outcome (s : AppState) (g : GenOutcome)
    (h : bothImagesPresent s = true) :
    handleGenerate s g = [startGenerating s, applyOutcome (startGenerating s) g] ∧
    (startGenerating s).error = none ∧
    (startGenerating s).resultImage = none := by
  refine ⟨by simp [handleGenerate, h], rfl, rfl⟩

theorem C3_clears_before_outcome_witness :
    handleGenerate stBoth (.resolve "pic") =
      [startGenerating stBoth, applyOutcome (startGenerating stBoth) (.resolve "pic")] ∧
    (startGenerating stBoth).error = none ∧
    (startGenerating stBoth).resultImage = none :=
  C3_clears_before_outcome stBoth (.resolve "pic") (by decide)

/-- C4: with both image slots present and the invocation starting while not
loading, the observable `isLoading` values over the run are exactly
`false, true, false`: one rise, one fall, ending at `false` on the success
path and on the failure path alike. -/
theorem C4_loading_pulse (s : AppState) (g : GenOutcome)
    (h : bothImagesPresent s = true) (h0 : s.isLoading = false) :
    (s :: handleGenerate s g).map AppState.isLoading = [false, true, false] := by
  cases g <;>
    simp [handleGenerate, h, h0, startGenerating, applyOutcome]

theorem C4_loading_pulse_witness :
    (stBoth :: handleGenerate stBoth (.reject none)).map AppState.isLoading =
      [false, true, false] :=
  C4_loading_pulse stBoth (.reject none) (by decide) (by decide)

/-- C6: with both image slots present, no observable state of the run has
`isLoading` true together with a set `error`: the failure message lands in
the same update batch that returns `isLoading` to false, so error is only
ever visible after loading has ended. -/
theorem C6_no_error_while_loading (s : AppState) (g : GenOutcome)
    (h : bothImagesPresent s = true) :
    ∀ t ∈ handleGenerate s g, t.isLoading = true → t.error = none := by
  intro t ht
  rw [handleGenerate, if_pos h] at ht
  rcases List.mem_pair.mp ht with rfl | rfl
  · intro _; rfl
  · intro hload
    cases g <;> simp [applyOutcome, startGenerating] at hload

theorem C6_no_error_while_loading_witness :
    (startGenerating stBoth).error = none :=
  C6_no_error_while_loading stBoth (.reject (some "boom")) (by decide)
    (startGenerating stBoth) (by decide) (by decide)

/-- C10: when the guard fails, the only change is `error` being set to the
validation message: every other field, in particular a `resultImage` left
over from a previous success and `isLoading`, keeps its prior value. -/
theorem C10_guard_frame (s : AppState) (g : GenOutcome)
    (h : s.personImage = none ∨ s.clothImage = none) :
    handleGenerateFinal s g = { s with error := some VALIDATION_MESSAGE } ∧
    (handleGenerateFinal s g).resultImage = s.resultImage ∧
    (handleGenerateFinal s g).isLoading = s.isLoading ∧
    (handleGenerateFinal s g).personImage = s.personImage ∧
    (handleGenerateFinal s g).clothImage = s.clothImage := by
  have hb : bothImagesPresent s = false := by
    rcases h with h | h <;> simp [bothImagesPresent, h]
  refine ⟨?_, ?_, ?_, ?_, ?_⟩ <;>
    simp [handleGenerateFinal, handleGenerate, hb]

theorem C10_guard_frame_witness :
    handleGenerateFinal stMissing (.resolve "pic") =
      { stMissing with error := some VALIDATION_MESSAGE } ∧
    (handleGenerateFinal stMissing (.resolve "pic")).resultImage = some "old" :=
  ⟨(C10_guard_frame stMissing (.resolve "pic") (Or.inl rfl)).1,
   (C10_guard_frame stMissing (.resolve "pic") (Or.inl rfl)).2.1⟩

/-!
The loading-message effect (src/App.tsx lines 72-85).  `LOADING_MESSAGES`
comes from `src/constants`, which is not part of the sources; modelled from
the spec as an arbitrary fixed, finite, nonempty list of strings, a
parameter `msgs` below.  The effect is driven by three kinds of events:
`start` when `isLoading` turns true (the effect body runs, `messageIndex`
is a fresh closure variable initialised to 0, the interval is installed),
`tick` each time the interval fires (every 2500 ms), and `stop` when
`isLoading` turns false (the cleanup clears the interval, so later ticks
never occur and are no-ops). -/

/-- The interval period of the loading-message timer (line 82). -/
def LOADING_MESSAGE_INTERVAL_MS : Nat := 2500

/-- The state the loading-message effect acts on: the `isLoading` and
`loadingMessage` slots together with the effect's closure-local
`messageIndex` (line 78). -/
structure ProgressState where
  isLoading : Bool
  messageIndex : Nat
  loadingMessage : String
  deriving DecidableEq, Repr

/-- Events driving the loading-message effect. -/
inductive ProgressEv where
  | start
  | tick
  | stop
  deriving DecidableEq, Repr

/-- One event-step of the loading-message effect over the message list
`msgs`.  A `tick` while loading runs the interval callback of lines 79-82:
`messageIndex = (messageIndex + 1) % msgs.length; setLoadingMessage(msgs[messageIndex])`.
A `tick` while not loading is a no-op: the cleanup at line 84 has already
cleared the interval.  A `start` from a non-loading state installs a fresh
cycle with `messageIndex = 0` and does not touch `loadingMessage`. -/
def progressStep (msgs : List String) (s : ProgressState) : ProgressEv → ProgressState
  | .start =>
      if s.isLoading then s
      else { s with isLoading := true, messageIndex := 0 }
  | .tick =>
      if s.isLoading then
        { s with messageIndex := (s.messageIndex + 1) % msgs.length,
                 loadingMessage :=
                   msgs.getD ((s.messageIndex + 1) % msgs.length) s.loadingMessage }
      else s
  | .stop => { s with isLoading := false }

/-- A run of the loading-message effect over a list of events. -/
def progressRun (msgs : List String) (s : ProgressState) (evs : List ProgressEv) :
    ProgressState :=
  evs.foldl (progressStep msgs) s

/-- The state at mount: not loading, and `loadingMessage` initialised to
`LOADING_MESSAGES[0]` by `useState` (line 17). -/
def initialProgressState (msgs : List String) : ProgressState :=
  { isLoading := false, messageIndex := 0, loadingMessage := msgs.getD 0 "" }

/-- `n` consecutive timer ticks. -/
def runTicks (msgs : List String) (s : ProgressState) (n : Nat) : ProgressState :=
  progressRun msgs s (List.replicate n .tick)

lemma runTicks_succ (msgs : List String) (s : ProgressState) (n : Nat) :
    runTicks msgs s (n + 1) = runTicks msgs (progressStep msgs s .tick) n := by
  simp [runTicks, progressRun, List.replicate_succ]

lemma tick_isLoading (msgs : List String) (s : ProgressState) :
    (progressStep msgs s .tick).isLoading = s.isLoading := by
  by_cases h : s.isLoading = true <;> simp [progressStep, h]

lemma getD_default_irrel {α : Type} (l : List α) (i : Nat) (d d' : α)
    (h : i < l.length) : l.getD i d = l.getD i d' := by
  rw [List.getD_eq_getElem?_getD, List.getD_eq_getElem?_getD,
    List.getElem?_eq_getElem h]
  rfl

lemma getD_mem {α : Type} (l : List α) (i : Nat) (d : α)
    (h : i < l.length) : l.getD i d ∈ l := by
  rw [List.getD_eq_getElem?_getD, List.getElem?_eq_getElem h]
  exact List.getElem_mem h

lemma runTicks_pos (msgs : List String) (hm : msgs ≠ [])
    (s : ProgressState) (n : Nat) (h : s.isLoading = true) :
    (runTicks msgs s (n + 1)).messageIndex = (s.messageIndex + (n + 1)) % msgs.length ∧
    (runTicks msgs s (n + 1)).isLoading = true ∧
    (runTicks msgs s (n + 1)).loadingMessage =
      msgs.getD ((s.messageIndex + (n + 1)) % msgs.length) "" := by
  have hlen : 0 < msgs.length := List.length_pos.mpr hm
  induction n generalizing s with
  | zero =>
      rw [runTicks_succ]
      have hmod : (s.messageIndex + 1) % msgs.length < msgs.length :=
        Nat.mod_lt _ hlen
      refine ⟨?_, ?_, ?_⟩
      · simp [runTicks, progressRun, progressStep, h]
      · simp [runTicks, progressRun, progressStep, h]
      · simp only [runTicks, progressRun, List.replicate, List.foldl,
          progressStep, h, if_pos]
        exact getD_default_irrel msgs _ s.loadingMessage "" hmod
  | succ n ih =>
      rw [runTicks_succ]
      have h' : (progressStep msgs s .tick).isLoading = true := by
        rw [tick_isLoading]; exact h
      obtain ⟨hi, hl, hmsg⟩ := ih (progressStep msgs s .tick) h'
      have hidx : (progressStep msgs s .tick).messageIndex =
          (s.messageIndex + 1) % msgs.length := by
        simp [progressStep, h]
      have harith : ((s.messageIndex + 1) % msgs.length + (n + 1)) % msgs.length =
          (s.messageIndex + (n + 1 + 1)) % msgs.length := by
        rw [Nat.mod_add_mod]
        ring_nf
      refine ⟨?_, hl, ?_⟩
      · rw [hi, hidx, harith]
      · rw [hmsg, hidx, harith]

/-- C8: while loading, each interval tick (one every
`LOADING_MESSAGE_INTERVAL_MS = 2500` ms) advances `loadingMessage` one step
through `msgs`, so after `n + 1` ticks the index is
`(start + n + 1) % msgs.length` and the displayed message is that element of
the sequence — the modulus wraps the last element back to the first, as the
wrap conjunct makes explicit; once loading stops the interval is cleared and
a tick changes nothing, so no further advance occurs. -/
theorem C8_message_rotation (msgs : List String) (hm : msgs ≠ [])
    (s : ProgressState) (n : Nat) (h : s.isLoading = true) :
    (runTicks msgs s (n + 1)).messageIndex = (s.messageIndex + (n + 1)) % msgs.length ∧
    (runTicks msgs s (n + 1)).loadingMessage =
      msgs.getD ((s.messageIndex + (n + 1)) % msgs.length) "" ∧
    (runTicks msgs s (n + 1)).loadingMessage ∈ msgs ∧
    (s.messageIndex + 1 = msgs.length →
        (progressStep msgs s .tick).messageIndex = 0 ∧
        (progressStep msgs s .tick).loadingMessage = msgs.getD 0 "") ∧
    (∀ t : ProgressState, t.isLoading = false → progressStep msgs t .tick = t) ∧
    (progressStep msgs s .stop).isLoading = false ∧
    (progressStep msgs s .stop).loadingMessage = s.loadingMessage ∧
    LOADING_MESSAGE_INTERVAL_MS = 2500 := by
  have hlen : 0 < msgs.length := List.length_pos.mpr hm
  obtain ⟨hi, hl, hmsg⟩ := runTicks_pos msgs hm s n h
  refine ⟨hi, hmsg, ?_, ?_, ?_, rfl, rfl, rfl⟩
  · rw [hmsg]
    exact getD_mem msgs _ "" (Nat.mod_lt _ hlen)
  · intro hwrap
    have hzero : (s.messageIndex + 1) % msgs.length = 0 := by
      rw [hwrap, Nat.mod_self]
    constructor
    · simp [progressStep, h, hzero]
    · simp only [progressStep, h, if_pos, hzero]
      exact getD_default_irrel msgs 0 s.loadingMessage "" hlen
  · intro t ht
    simp [progressStep, ht]

theorem C8_message_rotation_witness :
    (runTicks ["A", "B", "C"] (ProgressState.mk true 0 "A") 4).messageIndex = 1 ∧
    (runTicks ["A", "B", "C"] (ProgressState.mk true 0 "A") 4).loadingMessage = "B" ∧
    (progressStep ["A", "B", "C"] (ProgressState.mk true 2 "C") .tick).messageIndex = 0 ∧
    (progressStep ["A", "B", "C"] (ProgressState.mk true 2 "C") .tick).loadingMessage = "A" ∧
    progressStep ["A", "B", "C"] (ProgressState.mk false 1 "B") .tick =
      ProgressState.mk false 1 "B" := by
  have h := C8_message_rotation ["A", "B", "C"] (by decide)
    (ProgressState.mk true 0 "A") 3 rfl
  have hw := C8_message_rotation ["A", "B", "C"] (by decide)
    (ProgressState.mk true 2 "C") 0 rfl
  exact ⟨h.1, h.2.1, (hw.2.2.2.1 rfl).1, (hw.2.2.2.1 rfl).2,
    h.2.2.2.2.1 (ProgressState.mk false 1 "B") rfl⟩

/-- C5 claims that every transition of `isLoading` from false to true resets
`loadingMessage` to the first element of the sequence before any tick.  The
code initialises `loadingMessage` to `LOADING_MESSAGES[0]` only once, in
`useState` (line 17), and the effect never writes it on loading start: with
`msgs = ["A", "B"]`, after a first cycle of one tick (leaving "B") a second
`start` begins a loading cycle whose pre-tick message is "B", not the first
element "A". -/
theorem C5_counterexample :
    (progressRun ["A", "B"] (initialProgressState ["A", "B"])
        [.start, .tick, .stop]).isLoading = false ∧
    (progressRun ["A", "B"] (initialProgressState ["A", "B"])
        [.start, .tick, .stop, .start]).isLoading = true ∧
    (progressRun ["A", "B"] (initialProgressState ["A", "B"])
        [.start, .tick, .stop, .start]).messageIndex = 0 ∧
    (progressRun ["A", "B"] (initialProgressState ["A", "B"])
        [.start, .tick, .stop, .start]).loadingMessage = "B" ∧
    ("B" ≠ ["A", "B"].getD 0 "") := by
  refine ⟨rfl, rfl, rfl, rfl, by decide⟩

/-- C5 amended: `loadingMessage` equals the first element of the sequence at
mount (the `useState` initialisation) and hence at the first loading cycle's
start; a later false-to-true transition of `isLoading` restarts the tick
index at 0 but leaves `loadingMessage` unchanged, so the new cycle shows the
previous cycle's last message until its first tick. -/
theorem C5_amended (msgs : List String) (s : ProgressState) :
    (initialProgressState msgs).loadingMessage = msgs.getD 0 "" ∧
    (s.isLoading = false →
        (progressStep msgs s .start).loadingMessage = s.loadingMessage ∧
        (progressStep msgs s .start).messageIndex = 0 ∧
        (progressStep msgs s .start).isLoading = true) := by
  refine ⟨rfl, fun h => ?_⟩
  refine ⟨?_, ?_, ?_⟩ <;> simp [progressStep, h]

theorem C5_amended_witness :
    (initialProgressState ["A", "B"]).loadingMessage = ["A", "B"].getD 0 "" ∧
    (progressStep ["A", "B"] (ProgressState.mk false 1 "B") .start).loadingMessage = "B" ∧
    (progressStep ["A", "B"] (ProgressState.mk false 1 "B") .start).messageIndex = 0 ∧
    (progressStep ["A", "B"] (ProgressState.mk false 1 "B") .start).isLoading = true :=
  ⟨(C5_amended ["A", "B"] (ProgressState.mk false 1 "B")).1,
   ((C5_amended ["A", "B"] (ProgressState.mk false 1 "B")).2 rfl).1,
   ((C5_amended ["A", "B"] (ProgressState.mk false 1 "B")).2 rfl).2.1,
   ((C5_amended ["A", "B"] (ProgressState.mk false 1 "B")).2 rfl).2.2⟩

/-!
`fileToImageInfo` (src/App.tsx lines 19-30) and the upload handlers
(lines 32-48).  The host `FileReader.readAsDataURL` is modelled by the web
platform's documented behaviour, matching the spec's "converts to a
base64-encoded text representation": a successful read yields the string
`"data:" ++ type ++ ";base64," ++ base64(bytes)`.  Line 25 then takes
`result.split(',')[1]` as the payload. -/

/-- A file handle as supplied by the host picker: raw bytes (each < 256 in
practice; the encoder below reduces mod 64 either way), MIME type and name. -/
structure FileData where
  bytes : List Nat
  type : String
  name : String
  deriving DecidableEq, Repr

/-- The standard base64 alphabet. -/
def BASE64_CHARS : List Char :=
  "ABCDEFGHIJKLMNOPQRSTUVWXYZabcdefghijklmnopqrstuvwxyz0123456789+/".data

/-- The base64 digit for a 6-bit value. -/
def base64Char (n : Nat) : Char := BASE64_CHARS.getD (n % 64) '='

/-- Standard base64 of a byte list, three bytes to four digits, `'='`
padding on a final chunk of one or two bytes. -/
def base64EncodeChunks : List Nat → List Char
  | [] => []
  | [b1] =>
      [base64Char (b1 / 4), base64Char ((b1 % 4) * 16), '=', '=']
  | [b1, b2] =>
      [base64Char (b1 / 4), base64Char ((b1 % 4) * 16 + b2 / 16),
       base64Char ((b2 % 16) * 4), '=']
  | b1 :: b2 :: b3 :: rest =>
      base64Char (b1 / 4) :: base64Char ((b1 % 4) * 16 + b2 / 16) ::
      base64Char ((b2 % 16) * 4 + b3 / 64) :: base64Char (b3 % 64) ::
      base64EncodeChunks rest

/-- Base64 of a byte list as a string. -/
def base64Encode (bs : List Nat) : String := String.mk (base64EncodeChunks bs)

/-- The result of a successful `FileReader.readAsDataURL` read. -/
def dataURL (f : FileData) : String :=
  "data:" ++ f.type ++ ";base64," ++ base64Encode f.bytes

/-- JavaScript's `String.split(',')`: the comma-separated groups, in order,
empty groups included. -/
def splitOnComma : List Char → List (List Char)
  | [] => [[]]
  | c :: cs =>
      if c = ',' then [] :: splitOnComma cs
      else
        match splitOnComma cs with
        | [] => [[c]]
        | g :: gs => (c :: g) :: gs

/-- `result.split(',')[1]` of line 25 (the empty string when the index is
out of range, which a successful read never produces). -/
def splitCommaSecond (s : String) : String :=
  String.mk ((splitOnComma s.data).getD 1 [])

/-- The resolved value of `fileToImageInfo` on a successful read
(lines 23-27): payload from `result.split(',')[1]`, MIME type and name
copied from the file. -/
def fileToImageInfo (f : FileData) : ImageInfo :=
  { base64 := splitCommaSecond (dataURL f)
    mimeType := f.type
    name := f.name }

/-- The opaque value passed to `reject` by `reader.onerror` (line 28). -/
structure ReadFailure where
  description : String
  deriving DecidableEq, Repr

/-- The promise returned by `fileToImageInfo`, given whether the host read
fails: it resolves with the encoded image, or rejects with the read error
(lines 20-29). -/
def fileToImageInfoPromise (f : FileData) (readErr : Option ReadFailure) :
    Except ReadFailure ImageInfo :=
  match readErr with
  | none => Except.ok (fileToImageInfo f)
  | some e => Except.error e

/-- `handlePersonImageUpload` (lines 32-39): on a file, await the encode and
set the slot; the rejection of a failed read propagates out of the handler
(there is no catch), leaving the state untouched; on `null`, clear the slot.
Returns the resulting state and the propagated failure, if any. -/
def handlePersonImageUpload (s : AppState) (file : Option FileData)
    (readErr : Option ReadFailure) : AppState × Option ReadFailure :=
  match file with
  | some f =>
      match fileToImageInfoPromise f readErr with
      | Except.ok info => ({ s with personImage := some info }, none)
      | Except.error e => (s, some e)
  | none => ({ s with personImage := none }, none)

/-- `handleClothImageUpload` (lines 41-48), symmetric to the person slot. -/
def handleClothImageUpload (s : AppState) (file : Option FileData)
    (readErr : Option ReadFailure) : AppState × Option ReadFailure :=
  match file with
  | some f =>
      match fileToImageInfoPromise f readErr with
      | Except.ok info => ({ s with clothImage := some info }, none)
      | Except.error e => (s, some e)
  | none => ({ s with clothImage := none }, none)

lemma base64Char_mem (n : Nat) : base64Char n ∈ BASE64_CHARS := by
  have hlen : BASE64_CHARS.length = 64 := rfl
  have hlt : n % 64 < BASE64_CHARS.length := by
    rw [hlen]; exact Nat.mod_lt _ (by norm_num)
  exact getD_mem BASE64_CHARS _ '=' hlt

lemma base64Char_ne_comma (n : Nat) : base64Char n ≠ ',' := by
  intro h
  have := base64Char_mem n
  rw [h] at this
  exact absurd this (by decide)

lemma comma_not_mem_chunks (bs : List Nat) : ',' ∉ base64EncodeChunks bs := by
  induction bs using base64EncodeChunks.induct with
  | case1 => simp [base64EncodeChunks]
  | case2 b1 =>
      simp only [base64EncodeChunks, List.mem_cons, List.not_mem_nil, or_false]
      push_neg
      exact ⟨fun h => base64Char_ne_comma _ h.symm,
             fun h => base64Char_ne_comma _ h.symm, by decide, by decide⟩
  | case3 b1 b2 =>
      simp only [base64EncodeChunks, List.mem_cons, List.not_mem_nil, or_false]
      push_neg
      exact ⟨fun h => base64Char_ne_comma _ h.symm,
             fun h => base64Char_ne_comma _ h.symm,
             fun h => base64Char_ne_comma _ h.symm, by decide⟩
  | case4 b1 b2 b3 rest ih =>
      simp only [base64EncodeChunks, List.mem_cons]
      push_neg
      exact ⟨fun h => base64Char_ne_comma _ h.symm,
             fun h => base64Char_ne_comma _ h.symm,
             fun h => base64Char_ne_comma _ h.symm,
             fun h => base64Char_ne_comma _ h.symm, ih⟩

lemma splitOnComma_no_comma (l : List Char) (h : ',' ∉ l) :
    splitOnComma l = [l] := by
  induction l with
  | nil => rfl
  | cons c cs ih =>
      have hc : ¬(c = ',') := fun hc => h (hc ▸ List.mem_cons_self c cs)
      have hcs : ',' ∉ cs := fun hm => h (List.mem_cons_of_mem c hm)
      rw [splitOnComma, if_neg hc, ih hcs]

lemma splitOnComma_append (l1 l2 : List Char) (h : ',' ∉ l1) :
    splitOnComma (l1 ++ ',' :: l2) = l1 :: splitOnComma l2 := by
  induction l1 with
  | nil => simp [splitOnComma]
  | cons c cs ih =>
      have hc : ¬(c = ',') := fun hc => h (hc ▸ List.mem_cons_self c cs)
      have hcs : ',' ∉ cs := fun hm => h (List.mem_cons_of_mem c hm)
      rw [List.cons_append, splitOnComma, if_neg hc, ih hcs]

lemma dataURL_data (f : FileData) :
    (dataURL f).data =
      ("data:".data ++ f.type.data ++ ";base64".data) ++
        ',' :: (base64Encode f.bytes).data := by
  show ("data:" ++ f.type ++ ";base64," ++ base64Encode f.bytes).data = _
  simp only [String.data_append, List.append_assoc]
  rfl

lemma header_no_comma (f : FileData) (h : ',' ∉ f.type.data) :
    ',' ∉ "data:".data ++ f.type.data ++ ";base64".data := by
  intro hmem
  rcases List.mem_append.mp hmem with hmem | hmem
  · rcases List.mem_append.mp hmem with hmem | hmem
    · exact absurd hmem (by decide)
    · exact h hmem
  · exact absurd hmem (by decide)

/-- C7: for every successfully read file (whose MIME type, as any MIME type,
contains no comma), `fileToImageInfo` yields a payload that is exactly the
base64 encoding of the file's bytes — the data-URI transport header up to
and including the comma is stripped, and no comma (hence no header remnant)
occurs in the payload — with `mimeType` and `name` copied from the file. -/
theorem C7_encode_strips_header (f : FileData) (h : ',' ∉ f.type.data) :
    (fileToImageInfo f).base64 = base64Encode f.bytes ∧
    ',' ∉ (fileToImageInfo f).base64.data ∧
    (fileToImageInfo f).mimeType = f.type ∧
    (fileToImageInfo f).name = f.name ∧
    dataURL f = "data:" ++ f.type ++ ";base64," ++ (fileToImageInfo f).base64 := by
  have hsplit : splitOnComma (dataURL f).data =
      ("data:".data ++ f.type.data ++ ";base64".data) ::
        [(base64Encode f.bytes).data] := by
    have hchunks : (base64Encode f.bytes).data = base64EncodeChunks f.bytes := rfl
    rw [dataURL_data, splitOnComma_append _ _ (header_no_comma f h), hchunks,
      splitOnComma_no_comma _ (comma_not_mem_chunks f.bytes)]
  have hbase : (fileToImageInfo f).base64 = base64Encode f.bytes := by
    show splitCommaSecond (dataURL f) = base64Encode f.bytes
    rw [splitCommaSecond, hsplit]
    rfl
  refine ⟨hbase, ?_, rfl, rfl, ?_⟩
  · rw [hbase]
    exact comma_not_mem_chunks f.bytes
  · rw [hbase]
    rfl

theorem C7_encode_strips_header_witness :
    (fileToImageInfo (FileData.mk [72, 105] "image/png" "hi.png")).base64 = "SGk=" ∧
    (fileToImageInfo (FileData.mk [72, 105] "image/png" "hi.png")).mimeType = "image/png" ∧
    (fileToImageInfo (FileData.mk [72, 105] "image/png" "hi.png")).name = "hi.png" ∧
    dataURL (FileData.mk [72, 105] "image/png" "hi.png") =
      "data:image/png;base64,SGk=" := by
  have h := C7_encode_strips_header (FileData.mk [72, 105] "image/png" "hi.png")
    (by decide)
  refine ⟨?_, h.2.2.1, h.2.2.2.1, ?_⟩
  · rw [h.1]; rfl
  · rw [h.2.2.2.2]; rfl

/-- C9: when the host read fails, the encode promise rejects with the read
failure and produces no `EncodedImage`, and either upload handler leaves the
whole state — in particular the corresponding image slot — unchanged,
propagating the failure to its caller instead of clearing the slot. -/
theorem C9_read_failure_propagates (s : AppState) (f : FileData) (e : ReadFailure) :
    fileToImageInfoPromise f (some e) = Except.error e ∧
    handlePersonImageUpload s (some f) (some e) = (s, some e) ∧
    handleClothImageUpload s (some f) (some e) = (s, some e) :=
  ⟨rfl, rfl, rfl⟩

end VirtualTryOn
